import Mathlib

/-!
Verification of the execution-lifecycle coordinator of the PythonEditor
repository (src/script.js, class PythonRunner, together with the Python-side
OutputCapture class it installs via setupPythonEnvironment).

The embedding models:
 - the Python interpreter's stream state (sys.stdout / sys.stderr as sinks,
   the OutputCapture instance with its StringIO buffers and saved originals);
 - the JS runner state (pyodide handle, isLoading, isRunning flags);
 - runCode, init, isReady, formatPythonError, translated line by line from
   the source.

User code executed by pyodide.runPython is abstracted by an EvalBehavior
record (text written to the current stdout/stderr sinks, an optional
non-null result value already stringified, an optional raised error string):
the coordinator treats the interpreter as an opaque evaluator, so this is
exactly the interface the coordinator code observes.  DOM rendering
(appendOutput) is modelled as the list of emitted events; the locale
timestamp prefixed to system lines is elided, since no claim concerns it.
Buffer identity matters for the stream-restoration claims, so StringIO
pairs carry a generation number that reset() increments (reset creates
fresh StringIO objects in the source).
-/

namespace PythonEditor

/-- A stream sink the interpreter's sys.stdout / sys.stderr can point at:
the real standard streams, or the capture buffers of generation `g`
(the StringIO pair created by the g-th call to OutputCapture.reset). -/
inductive Sink where
  | realOut : Sink
  | realErr : Sink
  | outBuf : Nat → Sink
  | errBuf : Nat → Sink
deriving DecidableEq

/-- The Python-side OutputCapture instance: its current StringIO pair
(generation and accumulated contents) and the sinks saved as
self.original_stdout / self.original_stderr at the last reset(). -/
structure OutputCapture where
  bufGen : Nat
  stdoutBuf : String
  stderrBuf : String
  original_stdout : Sink
  original_stderr : Sink
deriving DecidableEq

/-- Interpreter state: where sys.stdout / sys.stderr currently point, plus
the global _output_capture instance. -/
structure PyState where
  sysStdout : Sink
  sysStderr : Sink
  cap : OutputCapture
deriving DecidableEq

/-- The interpreter state right after setupPythonEnvironment: real streams,
and _output_capture freshly constructed (OutputCapture.__init__ calls
reset(), saving the then-current real streams as originals). -/
def initialPyState : PyState :=
  { sysStdout := Sink.realOut, sysStderr := Sink.realErr,
    cap := { bufGen := 0, stdoutBuf := "", stderrBuf := "",
             original_stdout := Sink.realOut, original_stderr := Sink.realErr } }

/-- OutputCapture.reset: fresh StringIO pair (new generation, empty
contents); saves the CURRENT sys.stdout / sys.stderr as the originals. -/
def OutputCapture.reset (ps : PyState) : PyState :=
  { ps with cap := { bufGen := ps.cap.bufGen + 1, stdoutBuf := "", stderrBuf := "",
                     original_stdout := ps.sysStdout,
                     original_stderr := ps.sysStderr } }

/-- OutputCapture.start_capture: point sys.stdout / sys.stderr at the
current StringIO pair. -/
def OutputCapture.start_capture (ps : PyState) : PyState :=
  { ps with sysStdout := Sink.outBuf ps.cap.bufGen,
            sysStderr := Sink.errBuf ps.cap.bufGen }

/-- OutputCapture.stop_capture: restore the saved originals and return the
two buffers' accumulated text (StringIO.getvalue does not clear). -/
def OutputCapture.stop_capture (ps : PyState) : PyState × String × String :=
  ({ ps with sysStdout := ps.cap.original_stdout,
             sysStderr := ps.cap.original_stderr },
   ps.cap.stdoutBuf, ps.cap.stderrBuf)

/-- A write to sys.stdout: lands in the current capture buffer exactly when
sys.stdout points at it; writes to the real streams or to a stale buffer of
an earlier generation are not tracked (no claim reads them). -/
def PyState.writeOut (ps : PyState) (s : String) : PyState :=
  if ps.sysStdout = Sink.outBuf ps.cap.bufGen then
    { ps with cap := { ps.cap with stdoutBuf := ps.cap.stdoutBuf ++ s } }
  else ps

/-- A write to sys.stderr, analogous to `PyState.writeOut`. -/
def PyState.writeErr (ps : PyState) (s : String) : PyState :=
  if ps.sysStderr = Sink.errBuf ps.cap.bufGen then
    { ps with cap := { ps.cap with stderrBuf := ps.cap.stderrBuf ++ s } }
  else ps

/-- JavaScript String.prototype.trim whitespace (the characters relevant
here; the full Unicode WhiteSpace set adds only more code points). -/
def isJsWhitespace (c : Char) : Bool :=
  c = ' ' || c = '\t' || c = '\n' || c = '\r' ||
  c = '\x0b' || c = '\x0c' || c = ' '

/-- JavaScript String.prototype.trim: strip leading and trailing
whitespace. -/
def jsTrim (s : String) : String :=
  String.mk (((s.data.dropWhile isJsWhitespace).reverse.dropWhile
      isJsWhitespace).reverse)

/-- Rendering class of an output line (appendOutput's second argument). -/
inductive OutputClass where
  | system : OutputClass
  | stdout : OutputClass
  | stderr : OutputClass
deriving DecidableEq

/-- One appendOutput call: rendering class and literal text (system lines
also carry a locale timestamp in the source, elided here). -/
structure Event where
  cls : OutputClass
  text : String
deriving DecidableEq

def msgLoading : String := "Python environment is still loading. Please wait..."
def msgAlreadyRunning : String := "Code is already running. Please wait..."
def msgNoCode : String := "No code to execute."
def msgRunStart : String := ">>> Running Python code..."
def msgRunEnd : String := ">>> Execution complete."
def msgNoOutput : String := "Code executed successfully (no output)"
def msgInitOk1 : String := "Python environment initialized successfully!"
def msgInitOk2 : String := "You can now run Python code."

/-- The engine-specific TypeError message produced by calling runPython on
a null handle (exact wording is environment-dependent; no claim depends on
it). -/
def nullHandleMessage : String := "Cannot read properties of null"

/-- PythonRunner.formatPythonError: pass the text through verbatim when it
contains the Traceback marker, otherwise prefix with Error: . -/
def formatPythonError (errorStr : String) : String :=
  if (errorStr.splitOn "Traceback").length > 1 then errorStr
  else "Error: " ++ errorStr

/-- What one evaluation of user source text does, as observed by the
coordinator: text written to the current stdout/stderr sinks, the
stringified result value when the evaluation returns one that is neither
undefined nor null, and the error string when it raises (text written
before the raise is still written). -/
structure EvalBehavior where
  outText : String
  errText : String
  result : Option String
  raises : Option String
deriving DecidableEq

/-- JS-side coordinator state: the pyodide handle (none until loaded, and
permanently none after a load failure) and the two guard flags. -/
structure RunnerState where
  pyodide : Option PyState
  isLoading : Bool
  isRunning : Bool
deriving DecidableEq

/-- The state set up by the PythonRunner constructor, before init() runs. -/
def constructorState : RunnerState :=
  { pyodide := none, isLoading := true, isRunning := false }

/-- Result of one runCode call: the coordinator state it leaves behind,
the appendOutput calls it made in order, and whether the user's source
text reached pyodide.runPython. -/
structure RunOutcome where
  st : RunnerState
  events : List Event
  userCodeEvaluated : Bool
deriving DecidableEq

/-- Evaluating user code with behaviour `beh`: its writes land on whatever
sinks sys.stdout / sys.stderr currently point at. -/
def runEval (ps : PyState) (beh : EvalBehavior) : PyState :=
  (ps.writeOut beh.outText).writeErr beh.errText

/-- PythonRunner.runCode, translated from src/script.js.  `teardownRaises`
models the possibility that the stop_capture call in the inner catch block
itself raises (the source wraps it in try/catch and ignores the error).
The runCode body is synchronous, so one call is modelled as one atomic
function; states with isRunning = true are the snapshots visible while a
run is in flight, which the isRunning guard protects against. -/
def runCode (st : RunnerState) (editorText : String) (beh : EvalBehavior)
    (teardownRaises : Bool) : RunOutcome :=
  if st.isLoading then
    ⟨st, [⟨OutputClass.system, msgLoading⟩], false⟩
  else if st.isRunning then
    ⟨st, [⟨OutputClass.system, msgAlreadyRunning⟩], false⟩
  else if jsTrim editorText = "" then
    ⟨st, [⟨OutputClass.system, msgNoCode⟩], false⟩
  else
    match st.pyodide with
    | none =>
      -- this.pyodide.runPython throws on the null handle before any user
      -- code runs; the outer catch reports it, the finally block still runs
      ⟨{ st with isRunning := false },
        [⟨OutputClass.system, msgRunStart⟩,
         ⟨OutputClass.stderr, "Runtime Error: " ++ nullHandleMessage⟩,
         ⟨OutputClass.system, msgRunEnd⟩], false⟩
    | some ps0 =>
      let ps1 := OutputCapture.start_capture (OutputCapture.reset ps0)
      let ps2 := runEval ps1 beh
      match beh.raises with
      | some errStr =>
        -- inner catch: best-effort stop_capture (errors ignored), then the
        -- formatted error; finally block appends the completion line
        let ps3 := if teardownRaises then ps2 else (OutputCapture.stop_capture ps2).1
        ⟨{ st with pyodide := some ps3, isRunning := false },
          [⟨OutputClass.system, msgRunStart⟩,
           ⟨OutputClass.stderr, formatPythonError errStr⟩,
           ⟨OutputClass.system, msgRunEnd⟩], true⟩
      | none =>
        -- the source's capture snippet calls stop_capture twice and
        -- destructures the second call's pair
        let r1 := OutputCapture.stop_capture ps2
        let r2 := OutputCapture.stop_capture r1.1
        let stdout := r2.2.1
        let stderr := r2.2.2
        let mid :=
          (if stdout ≠ "" then [⟨OutputClass.stdout, jsTrim stdout⟩] else [])
          ++ (if stderr ≠ "" then [⟨OutputClass.stderr, jsTrim stderr⟩] else [])
          ++ (match beh.result with
              | some v => if stdout = "" then [⟨OutputClass.stdout, v⟩] else []
              | none => [])
          ++ (if stdout = "" ∧ stderr = "" then
                [⟨OutputClass.system, msgNoOutput⟩] else [])
        ⟨{ st with pyodide := some r2.1, isRunning := false },
          ⟨OutputClass.system, msgRunStart⟩ :: mid ++ [⟨OutputClass.system, msgRunEnd⟩],
          true⟩

/-- Outcome of the awaited loadPyodide call inside init(). -/
inductive LoadResult where
  | success : LoadResult
  | failure : String → LoadResult
deriving DecidableEq

/-- PythonRunner.init, translated from src/script.js: on success the handle
is set and the two success system lines are appended; on failure (the
loadPyodide await threw) the handle stays null, isLoading is cleared either
way, and the error is appended with the stderr rendering class.  The body
contains no guard of any kind. -/
def init (st : RunnerState) (load : LoadResult) : RunnerState × List Event :=
  match load with
  | LoadResult.success =>
    ({ st with pyodide := some initialPyState, isLoading := false },
     [⟨OutputClass.system, msgInitOk1⟩, ⟨OutputClass.system, msgInitOk2⟩])
  | LoadResult.failure msg =>
    ({ st with isLoading := false },
     [⟨OutputClass.stderr, "Error initializing Python: " ++ msg⟩])

/-- PythonRunner.isReady: not loading and the handle is non-null. -/
def isReady (st : RunnerState) : Bool :=
  !st.isLoading && st.pyodide.isSome

/-- The spec's ExecutionState enum. -/
inductive ExecState where
  | Uninitialized : ExecState
  | Loading : ExecState
  | Ready : ExecState
  | Failed : ExecState
  | Running : ExecState
deriving DecidableEq

/-- Abstraction of the flag state to the spec's state machine: Loading while
isLoading holds, Failed once loading ended without a handle, Running /
Ready according to the isRunning flag once the handle exists.  Uninitialized
exists only before the constructor runs (the constructor sets
isLoading = true immediately), so no RunnerState maps to it. -/
def classify (st : RunnerState) : ExecState :=
  if st.isLoading then ExecState.Loading
  else
    match st.pyodide with
    | none => ExecState.Failed
    | some _ => if st.isRunning then ExecState.Running else ExecState.Ready

/-- Fold a list of runCode requests (editor text, evaluation behaviour,
teardown flag) from a state; returns the final state and whether any of
the requests got its user code evaluated. -/
def runSeq (st : RunnerState) :
    List (String × EvalBehavior × Bool) → RunnerState × Bool
  | [] => (st, false)
  | c :: rest =>
    let o := runCode st c.1 c.2.1 c.2.2
    let r := runSeq o.st rest
    (r.1, o.userCodeEvaluated || r.2)

/-- The output events an accepted run appends between the start and end
system lines, as a function of the evaluation behaviour: when the
evaluation raised, the single formatted error line (the captured text is
discarded); otherwise the four independent display checks of the source,
in their order. -/
def classificationEvents (beh : EvalBehavior) : List Event :=
  match beh.raises with
  | some errStr => [⟨OutputClass.stderr, formatPythonError errStr⟩]
  | none =>
    (if beh.outText ≠ "" then [⟨OutputClass.stdout, jsTrim beh.outText⟩] else [])
    ++ (if beh.errText ≠ "" then [⟨OutputClass.stderr, jsTrim beh.errText⟩] else [])
    ++ (match beh.result with
        | some v => if beh.outText = "" then [⟨OutputClass.stdout, v⟩] else []
        | none => [])
    ++ (if beh.outText = "" ∧ beh.errText = "" then
          [⟨OutputClass.system, msgNoOutput⟩] else [])

/-- Interpreter state an accepted run leaves behind. -/
def finalPy (ps : PyState) (beh : EvalBehavior) (teardownRaises : Bool) : PyState :=
  let ps2 := runEval (OutputCapture.start_capture (OutputCapture.reset ps)) beh
  match beh.raises with
  | some _ => if teardownRaises then ps2 else (OutputCapture.stop_capture ps2).1
  | none => (OutputCapture.stop_capture (OutputCapture.stop_capture ps2).1).1

/-- Characterization of runCode on an accepted run: full outcome. -/
theorem runCode_accepted (st : RunnerState) (ps : PyState) (t : String)
    (beh : EvalBehavior) (td : Bool)
    (hL : st.isLoading = false) (hR : st.isRunning = false)
    (hP : st.pyodide = some ps) (ht : jsTrim t ≠ "") :
    runCode st t beh td =
      ⟨{ st with pyodide := some (finalPy ps beh td), isRunning := false },
       ⟨OutputClass.system, msgRunStart⟩ :: classificationEvents beh
         ++ [⟨OutputClass.system, msgRunEnd⟩], true⟩ := by
  obtain ⟨o, e, r, x⟩ := beh
  cases x with
  | none =>
    simp [runCode, hL, hR, hP, ht, finalPy, classificationEvents, runEval,
      OutputCapture.reset, OutputCapture.start_capture, OutputCapture.stop_capture,
      PyState.writeOut, PyState.writeErr]
  | some errStr =>
    simp [runCode, hL, hR, hP, ht, finalPy, classificationEvents, runEval,
      OutputCapture.reset, OutputCapture.start_capture, OutputCapture.stop_capture,
      PyState.writeOut, PyState.writeErr]

/-- The state after a successful init() from the constructor state, and the
starting point of the concrete scenarios below. -/
def readyState : RunnerState :=
  { pyodide := some initialPyState, isLoading := false, isRunning := false }

/-- The reset-then-start sequence runCode issues, i.e. the spec's
StreamCapture.begin(). -/
def beginCapture (ps : PyState) : PyState :=
  OutputCapture.start_capture (OutputCapture.reset ps)

/-- C8: isReady() returns true iff the coordinator is no longer loading and
the interpreter handle is non-null, equivalently iff the abstract state is
none of Uninitialized, Loading, Failed. -/
theorem c8_isReady_iff (st : RunnerState) :
    (isReady st = (!st.isLoading && st.pyodide.isSome))
    ∧ (isReady st = true ↔
        (classify st ≠ ExecState.Uninitialized ∧ classify st ≠ ExecState.Loading
          ∧ classify st ≠ ExecState.Failed)) := by
  refine ⟨rfl, ?_⟩
  cases st with
  | mk p l r =>
    cases l <;> rcases p with _ | ps <;> cases r <;> simp [isReady, classify]

/-- C9: OutputCapture.stop_capture is idempotent: a second call returns the
same (stdout, stderr) pair and the same state, and any call leaves
sys.stdout / sys.stderr restored to the saved originals — so the success
path's double invocation yields exactly what a single one would. -/
theorem c9_stop_capture_idempotent (ps : PyState) :
    OutputCapture.stop_capture (OutputCapture.stop_capture ps).1
      = OutputCapture.stop_capture ps
    ∧ (OutputCapture.stop_capture ps).1.sysStdout = ps.cap.original_stdout
    ∧ (OutputCapture.stop_capture ps).1.sysStderr = ps.cap.original_stderr := by
  cases ps with
  | mk o e c => simp [OutputCapture.stop_capture]

/-- C10: with the loading/running guards passed, empty or whitespace-only
editor text yields the single No-code system message, an unchanged state
(so no Running transition, no capture, no interpreter call), and no user
code evaluated. -/
theorem c10_empty_code (st : RunnerState) (t : String) (beh : EvalBehavior)
    (td : Bool) (hL : st.isLoading = false) (hR : st.isRunning = false)
    (ht : jsTrim t = "") :
    runCode st t beh td = ⟨st, [⟨OutputClass.system, msgNoCode⟩], false⟩ := by
  simp [runCode, hL, hR, ht]

theorem c10_empty_code_witness :
    runCode readyState "   \n " ⟨"", "", none, none⟩ false
      = ⟨readyState, [⟨OutputClass.system, msgNoCode⟩], false⟩ :=
  c10_empty_code readyState "   \n " ⟨"", "", none, none⟩ false rfl rfl (by decide)

/-- C4 counterexample: init() has no guard at all — calling it twice from
the constructor state with a successful load emits the success message
pair twice (two initialization message pairs, not one), and the second
call is not a no-op (it emits events). -/
theorem c4_init_counterexample :
    ((init constructorState LoadResult.success).2
        ++ (init (init constructorState LoadResult.success).1 LoadResult.success).2).count
      ⟨OutputClass.system, msgInitOk1⟩ = 2
    ∧ (init (init constructorState LoadResult.success).1 LoadResult.success).2 ≠ [] := by
  decide

/-- C4 amended: init() contains no idempotence guard; a second call re-runs
the whole initialization sequence and emits the same message pair again
(so two pairs in total), though the resulting state coincides with that of
a single call.  In the source, init is invoked exactly once, by the
constructor. -/
theorem c4_init_not_idempotent (st : RunnerState) :
    (init (init st LoadResult.success).1 LoadResult.success).2
      = (init st LoadResult.success).2
    ∧ (init st LoadResult.success).2.length = 2
    ∧ (init (init st LoadResult.success).1 LoadResult.success).1
      = (init st LoadResult.success).1 := by
  simp [init]

/-- C7 counterexample: after a begin() that was never paired with an end(),
the next begin()/end() pair restores sys.stdout / sys.stderr to the
abandoned capture's buffers (generation 1), not to the true original
streams. -/
theorem c7_begin_counterexample :
    ((OutputCapture.stop_capture (beginCapture (beginCapture initialPyState))).1.sysStdout
        = Sink.outBuf 1
      ∧ (OutputCapture.stop_capture (beginCapture (beginCapture initialPyState))).1.sysStdout
        ≠ Sink.realOut)
    ∧ (OutputCapture.stop_capture (beginCapture (beginCapture initialPyState))).1.sysStderr
        = Sink.errBuf 1 := by
  decide

/-- C7 amended: begin() is callable after an unpaired begin() (reset runs
and never fails), but reset saves the CURRENT streams as originals, so the
matching end() restores the previous begin's capture buffers — a stale
buffer — rather than the true originals.  A properly paired begin()/end()
from clean streams does restore the true originals. -/
theorem c7_begin_amended (ps : PyState)
    (hOut : ps.sysStdout = Sink.realOut) (hErr : ps.sysStderr = Sink.realErr) :
    ((OutputCapture.stop_capture (beginCapture (beginCapture ps))).1.sysStdout
        = Sink.outBuf (ps.cap.bufGen + 1)
      ∧ (OutputCapture.stop_capture (beginCapture (beginCapture ps))).1.sysStderr
        = Sink.errBuf (ps.cap.bufGen + 1))
    ∧ (OutputCapture.stop_capture (beginCapture ps)).1.sysStdout = Sink.realOut
    ∧ (OutputCapture.stop_capture (beginCapture ps)).1.sysStderr = Sink.realErr := by
  simp [beginCapture, OutputCapture.reset, OutputCapture.start_capture,
    OutputCapture.stop_capture, hOut, hErr]

theorem c7_begin_amended_witness :
    ((OutputCapture.stop_capture (beginCapture (beginCapture initialPyState))).1.sysStdout
        = Sink.outBuf 1
      ∧ (OutputCapture.stop_capture (beginCapture (beginCapture initialPyState))).1.sysStderr
        = Sink.errBuf 1)
    ∧ (OutputCapture.stop_capture (beginCapture initialPyState)).1.sysStdout = Sink.realOut
    ∧ (OutputCapture.stop_capture (beginCapture initialPyState)).1.sysStderr = Sink.realErr :=
  c7_begin_amended initialPyState rfl rfl

/-- While a run is in flight (isRunning holds), any runCode call leaves the
state untouched and evaluates nothing. -/
theorem runCode_while_running (st : RunnerState) (h : st.isRunning = true)
    (t : String) (beh : EvalBehavior) (td : Bool) :
    (runCode st t beh td).st = st ∧ (runCode st t beh td).userCodeEvaluated = false := by
  by_cases hL : st.isLoading = true
  · simp [runCode, hL]
  · rw [Bool.not_eq_true] at hL
    simp [runCode, hL, h]

/-- Folding any request list from an in-flight state changes nothing and
evaluates no user code. -/
theorem runSeq_while_running (st : RunnerState) (h : st.isRunning = true) :
    ∀ calls, runSeq st calls = (st, false) := by
  intro calls
  induction calls with
  | nil => rfl
  | cons c rest ih =>
    have hc := runCode_while_running st h c.1 c.2.1 c.2.2
    simp [runSeq, hc.1, hc.2, ih]

/-- C1: the two runCode guards.  While Loading, the call emits the single
still-loading system line and returns with no state change and no
evaluation; while Running, it emits the single already-running system line
likewise; hence every request issued while a run is in flight is dropped
(any sequence of them leaves the state untouched and evaluates nothing),
while a request in the Ready state with non-empty code is accepted — so at
most one execution is in flight at any time. -/
theorem c1_run_guards (st : RunnerState) (ps : PyState) (t : String)
    (beh : EvalBehavior) (td : Bool) (calls : List (String × EvalBehavior × Bool)) :
    (st.isLoading = true →
      runCode st t beh td = ⟨st, [⟨OutputClass.system, msgLoading⟩], false⟩)
    ∧ (st.isLoading = false → st.isRunning = true →
      runCode st t beh td = ⟨st, [⟨OutputClass.system, msgAlreadyRunning⟩], false⟩)
    ∧ (st.isRunning = true → runSeq st calls = (st, false))
    ∧ (st.isLoading = false → st.isRunning = false → st.pyodide = some ps →
      jsTrim t ≠ "" → (runCode st t beh td).userCodeEvaluated = true) := by
  refine ⟨?_, ?_, ?_, ?_⟩
  · intro hL; simp [runCode, hL]
  · intro hL hR; simp [runCode, hL, hR]
  · intro hR; exact runSeq_while_running st hR calls
  · intro hL hR hP ht
    rw [runCode_accepted st ps t beh td hL hR hP ht]

theorem c1_run_guards_witness :
    runCode constructorState "print(1)" ⟨"", "", none, none⟩ false
      = ⟨constructorState, [⟨OutputClass.system, msgLoading⟩], false⟩
    ∧ runCode { pyodide := some initialPyState, isLoading := false, isRunning := true }
        "print(1)" ⟨"", "", none, none⟩ false
      = ⟨{ pyodide := some initialPyState, isLoading := false, isRunning := true },
         [⟨OutputClass.system, msgAlreadyRunning⟩], false⟩
    ∧ runSeq { pyodide := some initialPyState, isLoading := false, isRunning := true }
        [("x", ⟨"", "", none, none⟩, false), ("y", ⟨"", "", none, none⟩, true)]
      = ({ pyodide := some initialPyState, isLoading := false, isRunning := true }, false)
    ∧ (runCode readyState "print(1)" ⟨"1\n", "", none, none⟩ false).userCodeEvaluated
      = true :=
  ⟨(c1_run_guards constructorState initialPyState "print(1)" ⟨"", "", none, none⟩
      false []).1 rfl,
   (c1_run_guards { pyodide := some initialPyState, isLoading := false, isRunning := true }
      initialPyState "print(1)" ⟨"", "", none, none⟩ false []).2.1 rfl rfl,
   (c1_run_guards { pyodide := some initialPyState, isLoading := false, isRunning := true }
      initialPyState "print(1)" ⟨"", "", none, none⟩ false
      [("x", ⟨"", "", none, none⟩, false), ("y", ⟨"", "", none, none⟩, true)]).2.2.1 rfl,
   (c1_run_guards readyState initialPyState "print(1)" ⟨"1\n", "", none, none⟩
      false []).2.2.2 rfl rfl rfl (by decide)⟩

/-- In the failed state (loading over, handle still null), any single
runCode call evaluates no user code and returns the state unchanged. -/
theorem runCode_failed (st : RunnerState) (hL : st.isLoading = false)
    (hP : st.pyodide = none) (hR : st.isRunning = false)
    (t : String) (beh : EvalBehavior) (td : Bool) :
    (runCode st t beh td).userCodeEvaluated = false
    ∧ (runCode st t beh td).st = st := by
  have hst : st = { pyodide := none, isLoading := false, isRunning := false } := by
    cases st with
    | mk p l r => simp_all
  subst hst
  by_cases ht : jsTrim t = ""
  · simp [runCode, ht]
  · simp [runCode, ht]

/-- C5: the Failed state is terminal.  A state with loading over and a null
handle classifies as Failed; the init failure path emits the single
error-trace line and lands in Failed with the handle still null; and from
Failed, every runCode request — singly and along any sequence of requests —
evaluates no user code and leaves the state unchanged, so no user code is
ever executed by that coordinator instance. -/
theorem c5_failed_terminal (st : RunnerState) (m : String)
    (hL : st.isLoading = false) (hP : st.pyodide = none)
    (hR : st.isRunning = false) :
    classify st = ExecState.Failed
    ∧ (init constructorState (LoadResult.failure m)).2
      = [⟨OutputClass.stderr, "Error initializing Python: " ++ m⟩]
    ∧ classify (init constructorState (LoadResult.failure m)).1 = ExecState.Failed
    ∧ (∀ t beh td, (runCode st t beh td).userCodeEvaluated = false
        ∧ (runCode st t beh td).st = st)
    ∧ (∀ calls, runSeq st calls = (st, false)) := by
  refine ⟨by simp [classify, hL, hP], by simp [init], by simp [init, classify, constructorState],
    fun t beh td => runCode_failed st hL hP hR t beh td, ?_⟩
  intro calls
  induction calls with
  | nil => rfl
  | cons c rest ih =>
    have hc := runCode_failed st hL hP hR c.1 c.2.1 c.2.2
    simp [runSeq, hc.1, hc.2, ih]

theorem c5_failed_terminal_witness :
    classify { pyodide := none, isLoading := false, isRunning := false } = ExecState.Failed
    ∧ (init constructorState (LoadResult.failure "network")).2
      = [⟨OutputClass.stderr, "Error initializing Python: " ++ "network"⟩]
    ∧ classify (init constructorState (LoadResult.failure "network")).1 = ExecState.Failed
    ∧ (∀ t beh td,
        (runCode { pyodide := none, isLoading := false, isRunning := false } t beh td).userCodeEvaluated
          = false
        ∧ (runCode { pyodide := none, isLoading := false, isRunning := false } t beh td).st
          = { pyodide := none, isLoading := false, isRunning := false })
    ∧ (∀ calls, runSeq { pyodide := none, isLoading := false, isRunning := false } calls
        = ({ pyodide := none, isLoading := false, isRunning := false }, false)) :=
  c5_failed_terminal { pyodide := none, isLoading := false, isRunning := false }
    "network" rfl rfl rfl

/-- C3: on an accepted run whose evaluation raises, the run emits exactly
the start line, the formatted error trace, and the completion line; a
failure of the best-effort stop_capture in the catch block changes none of
the emitted events (swallowed silently); the state returns to Ready; and
when the teardown does not itself fail, the interpreter's streams are
restored to the sinks saved at reset time — the streams current when the
run began. -/
theorem c3_error_path (st : RunnerState) (ps : PyState) (t e : String)
    (beh : EvalBehavior) (td : Bool)
    (hL : st.isLoading = false) (hR : st.isRunning = false)
    (hP : st.pyodide = some ps) (ht : jsTrim t ≠ "")
    (hraise : beh.raises = some e) :
    (runCode st t beh td).events
      = [⟨OutputClass.system, msgRunStart⟩,
         ⟨OutputClass.stderr, formatPythonError e⟩,
         ⟨OutputClass.system, msgRunEnd⟩]
    ∧ (runCode st t beh td).events = (runCode st t beh true).events
    ∧ classify (runCode st t beh td).st = ExecState.Ready
    ∧ (td = false →
        ∃ pf, (runCode st t beh td).st.pyodide = some pf
          ∧ pf.sysStdout = ps.sysStdout ∧ pf.sysStderr = ps.sysStderr) := by
  rw [runCode_accepted st ps t beh td hL hR hP ht,
    runCode_accepted st ps t beh true hL hR hP ht]
  refine ⟨by simp [classificationEvents, hraise], rfl, by simp [classify, hL], ?_⟩
  intro htd
  subst htd
  refine ⟨finalPy ps beh false, rfl, ?_, ?_⟩
  · simp [finalPy, hraise, runEval, OutputCapture.reset, OutputCapture.start_capture,
      OutputCapture.stop_capture, PyState.writeOut, PyState.writeErr]
  · simp [finalPy, hraise, runEval, OutputCapture.reset, OutputCapture.start_capture,
      OutputCapture.stop_capture, PyState.writeOut, PyState.writeErr]

theorem c3_error_path_witness :
    (runCode readyState "1/0" ⟨"", "", none, some "ZeroDivisionError"⟩ false).events
      = [⟨OutputClass.system, msgRunStart⟩,
         ⟨OutputClass.stderr, formatPythonError "ZeroDivisionError"⟩,
         ⟨OutputClass.system, msgRunEnd⟩]
    ∧ (runCode readyState "1/0" ⟨"", "", none, some "ZeroDivisionError"⟩ false).events
      = (runCode readyState "1/0" ⟨"", "", none, some "ZeroDivisionError"⟩ true).events
    ∧ classify (runCode readyState "1/0" ⟨"", "", none, some "ZeroDivisionError"⟩ false).st
      = ExecState.Ready
    ∧ (false = false →
        ∃ pf, (runCode readyState "1/0" ⟨"", "", none, some "ZeroDivisionError"⟩ false).st.pyodide
            = some pf
          ∧ pf.sysStdout = initialPyState.sysStdout
          ∧ pf.sysStderr = initialPyState.sysStderr) :=
  c3_error_path readyState initialPyState "1/0" "ZeroDivisionError"
    ⟨"", "", none, some "ZeroDivisionError"⟩ false rfl rfl rfl (by decide) rfl

/-- The middle events of the claim's classification chain, encoded
literally from its words: (a) and (b) as written, then the else-chain
(c)/(d)/(e) as mutually exclusive alternatives (with (e) read charitably
as the no-output case). -/
def c2ClaimMiddle (threw : Option String) (stdout stderr : String)
    (result : Option String) : List Event :=
  (if stdout ≠ "" then [⟨OutputClass.stdout, jsTrim stdout⟩] else [])
  ++ (if stderr ≠ "" then [⟨OutputClass.stderr, jsTrim stderr⟩] else [])
  ++ (match threw with
      | some e => [⟨OutputClass.stderr, formatPythonError e⟩]
      | none =>
        match result with
        | some v => if stdout = "" then [⟨OutputClass.stdout, v⟩] else []
        | none =>
          if stdout = "" ∧ stderr = "" then [⟨OutputClass.system, msgNoOutput⟩]
          else [])

/-- C2 counterexample.  First facet: a run returning a non-null value with
empty captured streams emits BOTH the stringified-result Stdout and the
no-output SystemMessage — the source's display checks are independent ifs,
not the claim's exclusive chain, which at this input produces only the
Stdout.  Second facet: when evaluation raises after writing to stdout, the
source discards the captured text and emits only the error trace, while
the claim's (a) emits the captured stdout first. -/
theorem c2_classification_counterexample :
    ((runCode readyState "1+1" ⟨"", "", some "2", none⟩ false).events
      = [⟨OutputClass.system, msgRunStart⟩, ⟨OutputClass.stdout, "2"⟩,
         ⟨OutputClass.system, msgNoOutput⟩, ⟨OutputClass.system, msgRunEnd⟩]
    ∧ (runCode readyState "1+1" ⟨"", "", some "2", none⟩ false).events
      ≠ ⟨OutputClass.system, msgRunStart⟩ :: c2ClaimMiddle none "" "" (some "2")
          ++ [⟨OutputClass.system, msgRunEnd⟩])
    ∧ (runCode readyState "print(7)\nboom" ⟨"7\n", "", none, some "NameError"⟩ false).events
      ≠ ⟨OutputClass.system, msgRunStart⟩
          :: c2ClaimMiddle (some "NameError") "7\n" "" none
          ++ [⟨OutputClass.system, msgRunEnd⟩] := by
  decide

/-- C2 amended: on an accepted run the emitted output events between the
start and completion lines are exactly classificationEvents: when the
evaluation raised, the single formatted ErrorTrace (captured output
discarded); otherwise four INDEPENDENT checks in source order — captured
stdout if non-empty, captured stderr if non-empty, the stringified
non-null result if stdout was empty, and the no-output SystemMessage
whenever both captured streams are empty (also when a result was just
displayed). -/
theorem c2_classification_amended (st : RunnerState) (ps : PyState) (t : String)
    (beh : EvalBehavior) (td : Bool)
    (hL : st.isLoading = false) (hR : st.isRunning = false)
    (hP : st.pyodide = some ps) (ht : jsTrim t ≠ "") :
    (runCode st t beh td).events
      = ⟨OutputClass.system, msgRunStart⟩ :: classificationEvents beh
        ++ [⟨OutputClass.system, msgRunEnd⟩] := by
  rw [runCode_accepted st ps t beh td hL hR hP ht]

theorem c2_classification_amended_witness :
    (runCode readyState "x" ⟨"hello\n", "", none, none⟩ false).events
      = ⟨OutputClass.system, msgRunStart⟩
          :: classificationEvents ⟨"hello\n", "", none, none⟩
          ++ [⟨OutputClass.system, msgRunEnd⟩] :=
  c2_classification_amended readyState initialPyState "x" ⟨"hello\n", "", none, none⟩
    false rfl rfl rfl (by decide)

/-- No stdout-classified element occurs after a stderr-classified one. -/
def noStdoutAfterStderr : List OutputClass → Bool
  | [] => true
  | OutputClass.stderr :: rest =>
    rest.all (fun c => c != OutputClass.stdout) && noStdoutAfterStderr rest
  | _ :: rest => noStdoutAfterStderr rest

/-- The event order the claim asserts: first and last are system lines and
every stdout event precedes every stderr event. -/
def c6OrderOk (evs : List Event) : Bool :=
  (match evs.head? with
   | some ev => ev.cls == OutputClass.system
   | none => false)
  && (match evs.getLast? with
      | some ev => ev.cls == OutputClass.system
      | none => false)
  && noStdoutAfterStderr (evs.map Event.cls)

/-- C6 counterexample: a run with empty captured stdout, non-empty captured
stderr and a non-null result emits its Stdout event (the stringified
result) AFTER the Stderr event, violating the claimed fixed order
system-start, stdout, stderr-or-error, system-end. -/
theorem c6_order_counterexample :
    (runCode readyState "x" ⟨"", "err", some "5", none⟩ false).events
      = [⟨OutputClass.system, msgRunStart⟩, ⟨OutputClass.stderr, "err"⟩,
         ⟨OutputClass.stdout, "5"⟩, ⟨OutputClass.system, msgRunEnd⟩]
    ∧ c6OrderOk (runCode readyState "x" ⟨"", "err", some "5", none⟩ false).events
      = false := by
  decide

/-- At most one stdout and at most one stderr event among the middle
events, and their exact order. -/
theorem classificationEvents_filters (beh : EvalBehavior) :
    ((classificationEvents beh).filter
        (fun ev => ev.cls == OutputClass.stdout)).length ≤ 1
    ∧ ((classificationEvents beh).filter
        (fun ev => ev.cls == OutputClass.stderr)).length ≤ 1
    ∧ (classificationEvents beh).filter (fun ev => ev.cls != OutputClass.system)
      = (match beh.raises with
         | some er => [⟨OutputClass.stderr, formatPythonError er⟩]
         | none =>
           (if beh.outText ≠ "" then [⟨OutputClass.stdout, jsTrim beh.outText⟩] else [])
           ++ (if beh.errText ≠ "" then [⟨OutputClass.stderr, jsTrim beh.errText⟩] else [])
           ++ (match beh.result with
               | some v => if beh.outText = "" then [⟨OutputClass.stdout, v⟩] else []
               | none => [])) := by
  obtain ⟨o, e, r, x⟩ := beh
  cases x with
  | some er => simp [classificationEvents]
  | none =>
    cases r with
    | none =>
      by_cases ho : o = "" <;> by_cases he : e = "" <;>
        simp [classificationEvents, ho, he]
    | some v =>
      by_cases ho : o = "" <;> by_cases he : e = "" <;>
        simp [classificationEvents, ho, he]

/-- C6 amended: every accepted run's event sequence starts with the
system start line and ends with the system completion line, with at most
one Stdout and at most one Stderr event in between; the order of the
non-system events is captured-stdout, then stderr-or-error, then the
stringified-result Stdout — so a result-value Stdout follows the Stderr
event rather than preceding it.  (Runs cannot interleave: the body is
synchronous and the isRunning guard rejects reentrant calls.) -/
theorem c6_event_sequence_amended (st : RunnerState) (ps : PyState) (t : String)
    (beh : EvalBehavior) (td : Bool)
    (hL : st.isLoading = false) (hR : st.isRunning = false)
    (hP : st.pyodide = some ps) (ht : jsTrim t ≠ "") :
    ∃ mid, (runCode st t beh td).events
        = ⟨OutputClass.system, msgRunStart⟩ :: mid ++ [⟨OutputClass.system, msgRunEnd⟩]
      ∧ (mid.filter (fun ev => ev.cls == OutputClass.stdout)).length ≤ 1
      ∧ (mid.filter (fun ev => ev.cls == OutputClass.stderr)).length ≤ 1
      ∧ mid.filter (fun ev => ev.cls != OutputClass.system)
        = (match beh.raises with
           | some er => [⟨OutputClass.stderr, formatPythonError er⟩]
           | none =>
             (if beh.outText ≠ "" then [⟨OutputClass.stdout, jsTrim beh.outText⟩] else [])
             ++ (if beh.errText ≠ "" then [⟨OutputClass.stderr, jsTrim beh.errText⟩] else [])
             ++ (match beh.result with
                 | some v => if beh.outText = "" then [⟨OutputClass.stdout, v⟩] else []
                 | none => [])) := by
  refine ⟨classificationEvents beh, ?_, (classificationEvents_filters beh).1,
    (classificationEvents_filters beh).2.1, (classificationEvents_filters beh).2.2⟩
  rw [runCode_accepted st ps t beh td hL hR hP ht]

theorem c6_event_sequence_amended_witness :
    ∃ mid, (runCode readyState "x" ⟨"a\n", "b\n", none, none⟩ false).events
        = ⟨OutputClass.system, msgRunStart⟩ :: mid ++ [⟨OutputClass.system, msgRunEnd⟩]
      ∧ (mid.filter (fun ev => ev.cls == OutputClass.stdout)).length ≤ 1
      ∧ (mid.filter (fun ev => ev.cls == OutputClass.stderr)).length ≤ 1 := by
  obtain ⟨mid, h1, h2, h3, h4⟩ :=
    c6_event_sequence_amended readyState initialPyState "x" ⟨"a\n", "b\n", none, none⟩
      false rfl rfl rfl (by decide)
  exact ⟨mid, h1, h2, h3⟩

end PythonEditor
